import Mathlib

/-!
Verification development for the AI analysis orchestration layer of the
`amira-amirabot-analysis` repository.

The definitions below are a shallow embedding of the Python source:

* `src/amira_analysis/models.py` — `Message`, `Conversation`,
  `ConversationIssue`, `QualityAnalysis` and `QualityAnalysis.to_dict`;
* `src/amira_analysis/analyzers/ai.py` — the judgment schema
  (`ConversationAnalysisResult` and its parts), `_result_to_issues`,
  `_load_cached_analysis`, `_save_conversation_analysis`,
  `_analyze_single_conversation` (with its tenacity retry decorator) and
  the aggregation part of `analyze_async`;
* `src/amira_analysis/constants.py` — the string enumerations and
  numeric defaults used by the above.

External effects (the OpenAI call, JSON parsing, the file system) are
modelled as explicit parameters or explicit state, and the asyncio
semaphore discipline of `_analyze_single_conversation` is modelled as a
small-step transition system over per-task phases.
-/

/-! ## Data model (src/amira_analysis/models.py) -/

/-- Message from models.py: role, content, optional timestamp. -/
structure Message where
  role : String
  content : String
  timestamp : Option String := none
deriving DecidableEq, Repr

/-- Conversation from models.py: id, messages, created_at, optional status
and rating. -/
structure Conversation where
  id : String
  messages : List Message
  created_at : String
  status : Option String := none
  rating : Option Int := none
deriving DecidableEq, Repr

/-- Values stored in a `ConversationIssue.details` mapping
(`dict[str, Any]` in models.py); the AI analyzer stores ints, strings,
optional strings/ints and lists of message indices there. -/
inductive DetailValue where
  | int (n : Int)
  | str (s : String)
  | optStr (s : Option String)
  | optInt (n : Option Int)
  | intList (l : List Int)
  | bool (b : Bool)
deriving DecidableEq, Repr

/-- ConversationIssue from models.py. -/
structure ConversationIssue where
  conversation_id : String
  issue_type : String
  details : List (String × DetailValue)
  severity_score : Option Int := none
  ai_reasoning : Option String := none
  excerpt : Option String := none
deriving DecidableEq, Repr

/-- QualityAnalysis from models.py: total plus nine category buckets. -/
structure QualityAnalysis where
  total_analyzed : Nat
  repetitive : List ConversationIssue
  unhelpful : List ConversationIssue
  too_many_turns : List ConversationIssue
  dead_end : List ConversationIssue
  negative_rating : List ConversationIssue
  obvious_wrong_answers : List ConversationIssue
  missed_escalation : List ConversationIssue
  dumb_questions : List ConversationIssue
  lack_of_encouragement : List ConversationIssue
deriving DecidableEq, Repr

/-! ## Constants (src/amira_analysis/constants.py) -/

/-- DEFAULT_AI_MAX_RETRIES from constants.py. -/
def DEFAULT_AI_MAX_RETRIES : Nat := 4

/-- DEFAULT_AI_CONCURRENCY from constants.py. -/
def DEFAULT_AI_CONCURRENCY : Nat := 500

namespace IssueType

/-- IssueType.REPETITIVE string value from constants.py. -/
def REPETITIVE : String := "repetitive"

/-- IssueType.UNHELPFUL string value from constants.py. -/
def UNHELPFUL : String := "unhelpful"

/-- IssueType.TOO_MANY_TURNS string value from constants.py. -/
def TOO_MANY_TURNS : String := "too_many_turns"

/-- IssueType.DEAD_END string value from constants.py. -/
def DEAD_END : String := "dead_end"

/-- IssueType.NEGATIVE_RATING string value from constants.py. -/
def NEGATIVE_RATING : String := "negative_rating"

/-- IssueType.OBVIOUS_WRONG_ANSWER string value from constants.py. -/
def OBVIOUS_WRONG_ANSWER : String := "obvious_wrong_answer"

/-- IssueType.MISSED_ESCALATION string value from constants.py. -/
def MISSED_ESCALATION : String := "missed_escalation"

/-- IssueType.DUMB_QUESTION string value from constants.py. -/
def DUMB_QUESTION : String := "dumb_question"

/-- IssueType.LACK_OF_ENCOURAGEMENT string value from constants.py. -/
def LACK_OF_ENCOURAGEMENT : String := "lack_of_encouragement"

end IssueType

namespace DetailKey

/-- DetailKey.MESSAGE_COUNT from constants.py. -/
def MESSAGE_COUNT : String := "message_count"

/-- DetailKey.STATUS from constants.py. -/
def STATUS : String := "status"

/-- DetailKey.RATING from constants.py. -/
def RATING_KEY : String := "rating"

end DetailKey

namespace AIAnalysisDetailKey

/-- AIAnalysisDetailKey.OVERALL_SCORE from constants.py. -/
def OVERALL_SCORE : String := "overall_score"

/-- AIAnalysisDetailKey.OVERALL_VERDICT from constants.py. -/
def OVERALL_VERDICT : String := "overall_verdict"

/-- AIAnalysisDetailKey.MESSAGES_INVOLVED from constants.py. -/
def MESSAGES_INVOLVED : String := "messages_involved"

/-- AIAnalysisDetailKey.CONFIDENCE : String from constants.py. -/
def CONFIDENCE : String := "confidence"

/-- AIAnalysisDetailKey.RECOMMENDED_FIX from constants.py. -/
def RECOMMENDED_FIX : String := "recommended_fix"

end AIAnalysisDetailKey

/-! ## Judgment schema (src/amira_analysis/analyzers/ai.py lines 32-185) -/

/-- IssueTypeEnum from ai.py: the closed set of flag types the judge may
return. -/
inductive IssueTypeEnum where
  | OBVIOUS_WRONG_ANSWER
  | MISSED_ESCALATION
  | DUMB_QUESTION
  | REPETITIVE
  | LACK_OF_ENCOURAGEMENT
  | DEAD_END
deriving DecidableEq, Repr

/-- SeverityLevel from ai.py: low / medium / high. -/
inductive SeverityLevel where
  | low
  | medium
  | high
deriving DecidableEq, Repr

/-- ConfidenceLevel from ai.py: low / medium / high. -/
inductive ConfidenceLevel where
  | low
  | medium
  | high
deriving DecidableEq, Repr

/-- String value of a ConfidenceLevel (the `.value` of the Python
str-enum). -/
def ConfidenceLevel.value : ConfidenceLevel → String
  | .low => "low"
  | .medium => "medium"
  | .high => "high"

/-- VerdictEnum from ai.py: PASS / FAIL. -/
inductive VerdictEnum where
  | PASS
  | FAIL
deriving DecidableEq, Repr

/-- String value of a VerdictEnum (the `.value` of the Python str-enum). -/
def VerdictEnum.value : VerdictEnum → String
  | .PASS => "PASS"
  | .FAIL => "FAIL"

/-- PositiveBehavior from ai.py. -/
inductive PositiveBehavior where
  | fast_obvious_answer
  | clear_escalation
  | empathetic_tone
  | good_constraints_use
  | concise_steps
deriving DecidableEq, Repr

/-- OnTopicRefusalIncorrect from ai.py. -/
structure OnTopicRefusalIncorrect where
  messages : List Int
  evidence : String
  why_incorrect : String
deriving DecidableEq, Repr

/-- RefusalAssessment from ai.py. -/
structure RefusalAssessment where
  off_topic_refusals_count : Int := 0
  on_topic_refusals_incorrect : List OnTopicRefusalIncorrect := []
deriving DecidableEq, Repr

/-- IssueFlag from ai.py: one flagged issue in a judgment. -/
structure IssueFlag where
  type : IssueTypeEnum
  severity : SeverityLevel
  confidence : ConfidenceLevel
  messages : List Int
  evidence : String
  why_it_matters : String
  recommended_fix : String
deriving DecidableEq, Repr

/-- PositiveNote from ai.py. -/
structure PositiveNote where
  behavior : PositiveBehavior
  messages : List Int
  evidence : String
deriving DecidableEq, Repr

/-- MetricsBreakdown from ai.py (pydantic bounds ge/le are validation
constraints at the judge boundary, not structural). -/
structure MetricsBreakdown where
  correctness_score : Int
  escalation_score : Int
  question_quality_score : Int
  progress_score : Int
  tone_encouragement_score : Int
  no_dead_end_score : Int
deriving DecidableEq, Repr

/-- ConversationAnalysisResult from ai.py: the full judgment schema the
judge must return and the cache persists. -/
structure ConversationAnalysisResult where
  overall_score : Int
  overall_verdict : VerdictEnum
  summary : String
  metrics : MetricsBreakdown
  refusal_assessment : RefusalAssessment
  flags : List IssueFlag := []
  positives : List PositiveNote := []
  next_best_step : String
  suggested_handoff_message : Option String := none
  notes_for_training : String
  prize_candidate : Bool
  prize_reason : Option String := none
  cycles_without_progress : Int
  has_clear_next_step : Bool
deriving DecidableEq, Repr

/-! ## Flag-to-issue projection (ai.py `_result_to_issues`, lines 410-463) -/

/-- The issue_type_map dict from `_result_to_issues` (lines 423-430): each
judge flag type mapped to its reporting-facing IssueType string; the dict
`.get` default `IssueType.UNHELPFUL` is unreachable because every
IssueTypeEnum member is a key. -/
def issueTypeMap : IssueTypeEnum → String
  | .OBVIOUS_WRONG_ANSWER => IssueType.OBVIOUS_WRONG_ANSWER
  | .MISSED_ESCALATION => IssueType.MISSED_ESCALATION
  | .DUMB_QUESTION => IssueType.DUMB_QUESTION
  | .REPETITIVE => IssueType.REPETITIVE
  | .LACK_OF_ENCOURAGEMENT => IssueType.LACK_OF_ENCOURAGEMENT
  | .DEAD_END => IssueType.DEAD_END

/-- The severity_map dict from `_result_to_issues` (lines 433-437): low=3,
medium=6, high=9; the dict `.get` default `5` is unreachable because every
SeverityLevel member is a key. -/
def severityMap : SeverityLevel → Int
  | .low => 3
  | .medium => 6
  | .high => 9

/-- Projection of one IssueFlag into a ConversationIssue, following the
loop body of `_result_to_issues` (lines 439-461): the details dict
literal, the severity mapping, the reasoning concatenation and the
evidence excerpt. -/
def flagToIssue (conversation : Conversation) (result : ConversationAnalysisResult)
    (flag : IssueFlag) : ConversationIssue :=
  { conversation_id := conversation.id
  , issue_type := issueTypeMap flag.type
  , details :=
      [ (DetailKey.MESSAGE_COUNT, DetailValue.int conversation.messages.length)
      , (DetailKey.STATUS, DetailValue.optStr conversation.status)
      , (DetailKey.RATING_KEY, DetailValue.optInt conversation.rating)
      , (AIAnalysisDetailKey.OVERALL_SCORE, DetailValue.int result.overall_score)
      , (AIAnalysisDetailKey.OVERALL_VERDICT, DetailValue.str result.overall_verdict.value)
      , (AIAnalysisDetailKey.MESSAGES_INVOLVED, DetailValue.intList flag.messages)
      , (AIAnalysisDetailKey.CONFIDENCE, DetailValue.str flag.confidence.value)
      , (AIAnalysisDetailKey.RECOMMENDED_FIX, DetailValue.str flag.recommended_fix)
      ]
  , severity_score := some (severityMap flag.severity)
  , ai_reasoning := some (flag.why_it_matters ++ " | " ++ flag.recommended_fix)
  , excerpt := some flag.evidence
  }

/-- `_result_to_issues` (ai.py lines 410-463): one ConversationIssue per
flag, in flag order (the Python loop appends to a list). -/
def resultToIssues (conversation : Conversation)
    (result : ConversationAnalysisResult) : List ConversationIssue :=
  result.flags.map (flagToIssue conversation result)

/-! ## C7: severity projection -/

/-- C7: for every flag in a judgment, the projected ConversationIssue's
severity_score is exactly 3 when the flag's severity is low, 6 when
medium, and 9 when high: the issues' severity scores are, position by
position, `severityMap` of the flags' severities, and `severityMap` sends
low to 3, medium to 6 and high to 9. -/
theorem C7_severity_projection (conversation : Conversation)
    (result : ConversationAnalysisResult) :
    (resultToIssues conversation result).map (fun i => i.severity_score)
      = result.flags.map (fun f => some (severityMap f.severity))
    ∧ severityMap SeverityLevel.low = 3
    ∧ severityMap SeverityLevel.medium = 6
    ∧ severityMap SeverityLevel.high = 9 := by
  refine ⟨?_, rfl, rfl, rfl⟩
  simp [resultToIssues, flagToIssue]

/-! ## Result cache (ai.py `_load_cached_analysis` lines 251-279 and
`_save_conversation_analysis` lines 281-302)

The cache file content is modelled as a `String` (the JSON text); the
combination of `json.load` and
`ConversationAnalysisResult.model_validate` — which either yields a
validated result or raises — is modelled as a function
`parse : String → Option ConversationAnalysisResult`, and
`result.model_dump` plus `json.dump` as
`serialize : ConversationAnalysisResult → String`. -/

/-- Log levels of the loguru calls appearing in ai.py. -/
inductive LogLevel where
  | trace
  | debug
  | warning
  | error
deriving DecidableEq, Repr

/-- One log record: level and message text. -/
structure LogEvent where
  level : LogLevel
  message : String
deriving DecidableEq, Repr

/-- Warning logged by `_load_cached_analysis` when the cached JSON cannot
be parsed or fails schema validation (ai.py lines 276-278). -/
def loadFailWarning (conversationId : String) : LogEvent :=
  ⟨LogLevel.warning, "Failed to load cached analysis for conversation " ++ conversationId⟩

/-- Debug record logged by `_load_cached_analysis` on a successful load
(ai.py lines 271-273). -/
def loadOkDebug (conversationId : String) : LogEvent :=
  ⟨LogLevel.debug, "Loaded cached analysis for conversation " ++ conversationId⟩

/-- Error logged by `_analyze_single_conversation` when the judge call
raises (ai.py line 522). -/
def judgeErrorLog (conversationId : String) : LogEvent :=
  ⟨LogLevel.error, "Error analyzing conversation " ++ conversationId⟩

/-- `_load_cached_analysis` (ai.py lines 251-279): a missing file returns
None; an existing file is parsed and validated, and any exception is
caught, logged as a warning, and turned into None. The function returns
the optional result together with the log records it emitted; it is total,
so it never raises. -/
def loadCachedAnalysis (parse : String → Option ConversationAnalysisResult)
    (conversationId : String) (cacheFile : Option String) :
    Option ConversationAnalysisResult × List LogEvent :=
  match cacheFile with
  | none => (none, [])
  | some text =>
    match parse text with
    | some result => (some result, [loadOkDebug conversationId])
    | none => (none, [loadFailWarning conversationId])

/-- Observable states of the cache file over the course of
`_save_conversation_analysis` (ai.py lines 281-302). The function opens
the FINAL path with mode "w" — `output_path.open("w")` — which truncates
the file in place, and then `json.dump` streams the serialized text into
it; there is no temporary file and no rename. A reader may therefore
observe, besides the state before the save (`oldFile`), every prefix of
the new content, starting with the empty string left by the truncating
open. -/
def saveObservableStates (oldFile : Option String) (newContent : String) :
    List (Option String) :=
  oldFile :: (List.range (newContent.length + 1)).map
    (fun k => some (String.mk (newContent.data.take k)))

/-- File state left behind if the process or the write fails after
`output_path.open("w")` has truncated the file and `json.dump` has
emitted the first `k` characters of the new content (ai.py lines
293-295): the truncation has already destroyed the previous record. -/
def saveInterruptedState (newContent : String) (k : Nat) : Option String :=
  some (String.mk (newContent.data.take k))

/-! ## Single-conversation orchestration
(ai.py `_analyze_single_conversation` lines 465-523) -/

/-- Outcome of one `_analyze_single_conversation` call together with its
observable effects: the issues returned, how many times the cache was
consulted, how many judge (OpenAI) invocations were performed, the content
written to the cache file (None when no write happened), and the log
records emitted. -/
structure SingleOutcome where
  issues : List ConversationIssue
  cacheReads : Nat
  judgeCalls : Nat
  cacheWrite : Option String
  logs : List LogEvent
deriving DecidableEq, Repr

/-- Semantics of the tenacity decorator
`@retry(stop=stop_after_attempt(n), wait=wait_exponential(...))`
(ai.py lines 465-468): the wrapped body is invoked; if it returns
normally the result is final after that single invocation; if it raises
and attempts remain, it is invoked again, up to `n` invocations in total.
Returns the number of body invocations performed together with the final
outcome. -/
def retryStopAfterAttempt {ε α : Type} : Nat → Except ε α → Nat × Except ε α
  | 0, body => (0, body)
  | 1, body => (1, body)
  | Nat.succ (Nat.succ n), body =>
    match body with
    | Except.ok a => (1, Except.ok a)
    | Except.error _ =>
      let rest := retryStopAfterAttempt (Nat.succ n) body
      (rest.1 + 1, rest.2)

/-- Body of `_analyze_single_conversation` (ai.py lines 480-523), i.e.
the function as written inside the tenacity decorator. Every exception
path inside the body is caught: `_load_cached_analysis` catches its own
exceptions (lines 267-279), `_save_conversation_analysis` catches its own
(lines 292-302), and the judge call is wrapped in
`try ... except Exception` (lines 497-523) which logs the error and
returns the empty issue list. The body is therefore a total function.

The judge (the instructor-patched OpenAI call, lines 499-509) is modelled
as `judge : Except Unit ConversationAnalysisResult` — either a validated
judgment or an exception. -/
def analyzeSingleBody (noCache : Bool)
    (parse : String → Option ConversationAnalysisResult)
    (serialize : ConversationAnalysisResult → String)
    (judge : Except Unit ConversationAnalysisResult)
    (cacheFile : Option String) (conversation : Conversation) : SingleOutcome :=
  -- lines 480-490: `if not self.no_cache:` consult the cache; on a hit
  -- convert the cached result and return without any judge call or write
  let onMiss : Nat → List LogEvent → SingleOutcome := fun reads logs =>
    -- lines 492-523: acquire the semaphore, build the prompt, call the judge
    match judge with
    | Except.ok result =>
      -- lines 511-519: save the judgment immediately, then convert it
      { issues := resultToIssues conversation result
      , cacheReads := reads
      , judgeCalls := 1
      , cacheWrite := some (serialize result)
      , logs := logs }
    | Except.error _ =>
      -- lines 521-523: the exception is caught, logged, and the function
      -- returns the empty issue list; nothing is written
      { issues := []
      , cacheReads := reads
      , judgeCalls := 1
      , cacheWrite := none
      , logs := logs ++ [judgeErrorLog conversation.id] }
  if noCache then
    onMiss 0 []
  else
    match loadCachedAnalysis parse conversation.id cacheFile with
    | (some cachedResult, logs) =>
      { issues := resultToIssues conversation cachedResult
      , cacheReads := 1
      , judgeCalls := 0
      , cacheWrite := none
      , logs := logs }
    | (none, logs) => onMiss 1 logs

/-- `_analyze_single_conversation` as decorated (ai.py lines 465-523):
the tenacity retry wrapper around `analyzeSingleBody`. Because the body
catches every exception internally it never raises, which is expressed by
giving the wrapped computation the error type `Empty`; the wrapper
therefore performs exactly one body invocation. -/
def analyzeSingleConversation (noCache : Bool)
    (parse : String → Option ConversationAnalysisResult)
    (serialize : ConversationAnalysisResult → String)
    (judge : Except Unit ConversationAnalysisResult)
    (cacheFile : Option String) (conversation : Conversation) : SingleOutcome :=
  match (@retryStopAfterAttempt Empty SingleOutcome DEFAULT_AI_MAX_RETRIES
      (Except.ok (analyzeSingleBody noCache parse serialize judge cacheFile conversation))).2 with
  | Except.ok outcome => outcome
  | Except.error e => e.elim

/-- Number of body invocations the retry wrapper performs for
`_analyze_single_conversation` (1, since the body never raises). -/
def analyzeSingleAttempts (noCache : Bool)
    (parse : String → Option ConversationAnalysisResult)
    (serialize : ConversationAnalysisResult → String)
    (judge : Except Unit ConversationAnalysisResult)
    (cacheFile : Option String) (conversation : Conversation) : Nat :=
  (@retryStopAfterAttempt Empty SingleOutcome DEFAULT_AI_MAX_RETRIES
      (Except.ok (analyzeSingleBody noCache parse serialize judge cacheFile conversation))).1

/-- The retry wrapper around a body that returns normally performs exactly
one invocation (helper for the `_analyze_single_conversation` lemmas). -/
lemma analyzeSingle_eq_body (noCache : Bool)
    (parse : String → Option ConversationAnalysisResult)
    (serialize : ConversationAnalysisResult → String)
    (judge : Except Unit ConversationAnalysisResult)
    (cacheFile : Option String) (conversation : Conversation) :
    analyzeSingleConversation noCache parse serialize judge cacheFile conversation
      = analyzeSingleBody noCache parse serialize judge cacheFile conversation := rfl

/-! ## Concrete sample data used in counterexamples and witnesses -/

/-- Sample conversation used to evaluate the embedded code at concrete
inputs. -/
def sampleConversation : Conversation :=
  { id := "conv-1"
  , messages :=
      [ { role := "user", content := "How do I reset my password?" }
      , { role := "assistant", content := "Use the reset link on the login page." } ]
  , created_at := "2024-01-01T00:00:00Z"
  , status := some "closed"
  , rating := some 4 }

/-- Sample metrics breakdown. -/
def sampleMetrics : MetricsBreakdown :=
  { correctness_score := 8
  , escalation_score := 25
  , question_quality_score := 18
  , progress_score := 16
  , tone_encouragement_score := 12
  , no_dead_end_score := 4 }

/-- Sample high-severity flag. -/
def sampleFlag : IssueFlag :=
  { type := IssueTypeEnum.MISSED_ESCALATION
  , severity := SeverityLevel.high
  , confidence := ConfidenceLevel.high
  , messages := [1]
  , evidence := "bot kept churning"
  , why_it_matters := "wastes the user's time"
  , recommended_fix := "escalate to a human" }

/-- Sample low-severity flag. -/
def sampleLowFlag : IssueFlag :=
  { type := IssueTypeEnum.DEAD_END
  , severity := SeverityLevel.low
  , confidence := ConfidenceLevel.medium
  , messages := [2]
  , evidence := "no next step"
  , why_it_matters := "user left without a path forward"
  , recommended_fix := "offer a link or handoff" }

/-- Sample judgment with one high-severity flag and one low-severity
flag. -/
def sampleResult : ConversationAnalysisResult :=
  { overall_score := 55
  , overall_verdict := VerdictEnum.FAIL
  , summary := "Missed an escalation."
  , metrics := sampleMetrics
  , refusal_assessment := {}
  , flags := [sampleFlag, sampleLowFlag]
  , positives := []
  , next_best_step := "escalate"
  , notes_for_training := "escalate sooner"
  , prize_candidate := false
  , cycles_without_progress := 0
  , has_clear_next_step := true }

/-- A parse function standing for a cache whose records never validate
(every read raises inside `model_validate` and is caught). -/
def parseNone : String → Option ConversationAnalysisResult := fun _ => none

/-- A parse function standing for a cache whose records always validate
to `sampleResult`. -/
def parseSample : String → Option ConversationAnalysisResult := fun _ => some sampleResult

/-- A concrete serializer standing for `model_dump` + `json.dump`. -/
def serializeConst : ConversationAnalysisResult → String := fun _ => "serialized-judgment"

/-! ## C1: retry on judge exceptions -/

/-- C1: the claim says a Judge exception is retried up to 4 attempts with
exponential backoff before zero issues are recorded. In the code the
tenacity decorator `@retry(stop=stop_after_attempt(4), ...)` wraps
`_analyze_single_conversation`, but the body catches the Judge exception
itself (`except Exception` at ai.py line 521) and returns `[]`, so
tenacity never observes a failure: with a Judge that always raises and no
cached record, exactly ONE judge invocation is performed, the wrapper runs
the body exactly once, and zero issues are recorded immediately — even
though the configured stop is 4 attempts. -/
theorem C1_retry_never_fires :
    (analyzeSingleConversation false parseNone serializeConst
        (Except.error ()) none sampleConversation).judgeCalls = 1
    ∧ (analyzeSingleConversation false parseNone serializeConst
        (Except.error ()) none sampleConversation).issues = []
    ∧ (analyzeSingleConversation false parseNone serializeConst
        (Except.error ()) none sampleConversation).cacheWrite = none
    ∧ analyzeSingleAttempts false parseNone serializeConst
        (Except.error ()) none sampleConversation = 1
    ∧ DEFAULT_AI_MAX_RETRIES = 4 :=
  ⟨rfl, rfl, rfl, rfl, rfl⟩

/-! ## C5: cache bypass -/

/-- C5: when no_cache is true the cache is never consulted and exactly one
Judge invocation is performed, regardless of any previously cached
record; and when the judge yields a judgment, the cache file is
overwritten with its serialization and the returned issues are its
projection. -/
theorem C5_no_cache_bypass (parse : String → Option ConversationAnalysisResult)
    (serialize : ConversationAnalysisResult → String)
    (judge : Except Unit ConversationAnalysisResult)
    (cacheFile : Option String) (conversation : Conversation) :
    (analyzeSingleConversation true parse serialize judge cacheFile conversation).cacheReads = 0
    ∧ (analyzeSingleConversation true parse serialize judge cacheFile conversation).judgeCalls = 1
    ∧ ∀ result, judge = Except.ok result →
        (analyzeSingleConversation true parse serialize judge cacheFile conversation).cacheWrite
            = some (serialize result)
        ∧ (analyzeSingleConversation true parse serialize judge cacheFile conversation).issues
            = resultToIssues conversation result := by
  cases judge with
  | ok result =>
    refine ⟨rfl, rfl, fun r hr => ?_⟩
    cases hr
    exact ⟨rfl, rfl⟩
  | error e =>
    exact ⟨rfl, rfl, fun r hr => Except.noConfusion hr⟩

/-- C5 witness: the cache-bypass theorem applied at a concrete cached
record, judge and conversation. -/
theorem C5_no_cache_bypass_witness :
    (analyzeSingleConversation true parseSample serializeConst
        (Except.ok sampleResult) (some "stale-record") sampleConversation).cacheReads = 0
    ∧ (analyzeSingleConversation true parseSample serializeConst
        (Except.ok sampleResult) (some "stale-record") sampleConversation).cacheWrite
        = some (serializeConst sampleResult) := by
  obtain ⟨h1, _h2, h3⟩ := C5_no_cache_bypass parseSample serializeConst
    (Except.ok sampleResult) (some "stale-record") sampleConversation
  exact ⟨h1, (h3 sampleResult rfl).1⟩

/-! ## C9: corrupt or missing cache records -/

/-- C9: a cached file that fails to parse or validate makes the cache read
return None while logging a warning (it never raises: the read is a total
function); a missing file returns None with no log; and on such a miss
`_analyze_single_conversation` falls through to exactly one Judge
invocation. -/
theorem C9_corrupt_cache_is_miss (parse : String → Option ConversationAnalysisResult)
    (cid text : String) (serialize : ConversationAnalysisResult → String)
    (judge : Except Unit ConversationAnalysisResult) (conversation : Conversation)
    (hparse : parse text = none) :
    loadCachedAnalysis parse cid (some text) = (none, [loadFailWarning cid])
    ∧ loadCachedAnalysis parse cid none = (none, [])
    ∧ (analyzeSingleConversation false parse serialize judge (some text) conversation).judgeCalls = 1 := by
  refine ⟨by simp [loadCachedAnalysis, hparse], rfl, ?_⟩
  cases judge <;>
    simp [analyzeSingle_eq_body, analyzeSingleBody, loadCachedAnalysis, hparse]

/-- C9 witness: the corrupt-cache theorem applied at a concrete
unparseable record. -/
theorem C9_corrupt_cache_is_miss_witness :
    loadCachedAnalysis parseNone "conv-1" (some "corrupt-not-json") = (none, [loadFailWarning "conv-1"])
    ∧ (analyzeSingleConversation false parseNone serializeConst
        (Except.ok sampleResult) (some "corrupt-not-json") sampleConversation).judgeCalls = 1 := by
  obtain ⟨h1, _h2, h3⟩ := C9_corrupt_cache_is_miss parseNone "conv-1" "corrupt-not-json"
    serializeConst (Except.ok sampleResult) sampleConversation rfl
  exact ⟨h1, h3⟩

/-! ## C10: cache hit leaves the cache unchanged -/

/-- C10: with no_cache false and a cached record that parses and
validates, `_analyze_single_conversation` returns the issues projected
from the cached result, performs no Judge invocation, and performs no
cache write (the save runs only on the fresh-API success path). -/
theorem C10_cache_hit_frame (parse : String → Option ConversationAnalysisResult)
    (serialize : ConversationAnalysisResult → String)
    (judge : Except Unit ConversationAnalysisResult)
    (conversation : Conversation) (text : String) (result : ConversationAnalysisResult)
    (hparse : parse text = some result) :
    (analyzeSingleConversation false parse serialize judge (some text) conversation).issues
        = resultToIssues conversation result
    ∧ (analyzeSingleConversation false parse serialize judge (some text) conversation).judgeCalls = 0
    ∧ (analyzeSingleConversation false parse serialize judge (some text) conversation).cacheWrite = none := by
  refine ⟨?_, ?_, ?_⟩ <;>
    simp [analyzeSingle_eq_body, analyzeSingleBody, loadCachedAnalysis, hparse]

/-- C10 witness: the cache-hit frame theorem applied at a concrete cached
record. -/
theorem C10_cache_hit_frame_witness :
    (analyzeSingleConversation false parseSample serializeConst
        (Except.error ()) (some "cached-record") sampleConversation).issues
        = resultToIssues sampleConversation sampleResult
    ∧ (analyzeSingleConversation false parseSample serializeConst
        (Except.error ()) (some "cached-record") sampleConversation).judgeCalls = 0 := by
  obtain ⟨h1, h2, _h3⟩ := C10_cache_hit_frame parseSample serializeConst
    (Except.error ()) sampleConversation "cached-record" sampleResult rfl
  exact ⟨h1, h2⟩

/-! ## Aggregation (ai.py `analyze_async` lines 525-624) -/

/-- Sort key used at ai.py line 605: `x.severity_score or 0`. -/
def sortKey (x : ConversationIssue) : Int := x.severity_score.getD 0

/-- The per-category sort at ai.py lines 595-605:
`issue_list.sort(key=lambda x: x.severity_score or 0, reverse=True)`.
Python's list.sort is a stable sort; with reverse=True larger keys come
first and equal keys keep their original order, which is the stable merge
sort under the comparator "my key is at least yours". -/
def sortBySeverityDesc (l : List ConversationIssue) : List ConversationIssue :=
  l.mergeSort (fun a b => decide (sortKey b ≤ sortKey a))

/-- Membership test of the `elif` chain at ai.py lines 580-581. -/
def isObviousWrongAnswerIssue (x : ConversationIssue) : Bool :=
  x.issue_type == IssueType.OBVIOUS_WRONG_ANSWER

/-- Membership test of the `elif` chain at ai.py lines 582-583. -/
def isMissedEscalationIssue (x : ConversationIssue) : Bool :=
  x.issue_type == IssueType.MISSED_ESCALATION

/-- Membership test of the `elif` chain at ai.py lines 584-585. -/
def isDumbQuestionIssue (x : ConversationIssue) : Bool :=
  x.issue_type == IssueType.DUMB_QUESTION

/-- Membership test of the `elif` chain at ai.py lines 586-587. -/
def isRepetitiveIssue (x : ConversationIssue) : Bool :=
  x.issue_type == IssueType.REPETITIVE

/-- Membership test of the `elif` chain at ai.py lines 588-589. -/
def isLackOfEncouragementIssue (x : ConversationIssue) : Bool :=
  x.issue_type == IssueType.LACK_OF_ENCOURAGEMENT

/-- Membership test of the `elif` chain at ai.py lines 590-591. -/
def isDeadEndIssue (x : ConversationIssue) : Bool :=
  x.issue_type == IssueType.DEAD_END

/-- The catch-all `else` branch at ai.py lines 592-593: an issue whose
type matches none of the six recognized categories goes to `unhelpful`. -/
def isUnhelpfulCatchAll (x : ConversationIssue) : Bool :=
  !(isObviousWrongAnswerIssue x || isMissedEscalationIssue x || isDumbQuestionIssue x
    || isRepetitiveIssue x || isLackOfEncouragementIssue x || isDeadEndIssue x)

/-- The categorize-and-sort tail of `analyze_async` (ai.py lines 569-618):
the double loop over per-conversation result lists appends each issue to
the bucket selected by the `if`/`elif` chain, which yields, bucket by
bucket, the filter of the flattened results; each bucket is then sorted by
severity descending, and the QualityAnalysis is built with empty
`too_many_turns` and `negative_rating` buckets (lines 611, 613). -/
def categorizeAndSort (totalAnalyzed : Nat)
    (results : List (List ConversationIssue)) : QualityAnalysis :=
  let all := results.flatten
  { total_analyzed := totalAnalyzed
  , repetitive := sortBySeverityDesc (all.filter isRepetitiveIssue)
  , unhelpful := sortBySeverityDesc (all.filter isUnhelpfulCatchAll)
  , too_many_turns := []
  , dead_end := sortBySeverityDesc (all.filter isDeadEndIssue)
  , negative_rating := []
  , obvious_wrong_answers := sortBySeverityDesc (all.filter isObviousWrongAnswerIssue)
  , missed_escalation := sortBySeverityDesc (all.filter isMissedEscalationIssue)
  , dumb_questions := sortBySeverityDesc (all.filter isDumbQuestionIssue)
  , lack_of_encouragement := sortBySeverityDesc (all.filter isLackOfEncouragementIssue) }

/-- `analyze_async` (ai.py lines 525-624) with the per-conversation step
abstracted: `perConv` is the issue list `_analyze_single_conversation`
produces for a conversation (judge and cache behaving identically per
conversation, as claim C3 assumes). `total_analyzed` is
`len(conversations)` (line 608); the task results are collected with
`asyncio.as_completed`, i.e. in some permutation of this list — the C3
theorem quantifies over permutations of the input, which covers both
input shuffling and completion reordering. -/
def analyzeAsync (perConv : Conversation → List ConversationIssue)
    (conversations : List Conversation) : QualityAnalysis :=
  categorizeAndSort conversations.length (conversations.map perConv)

/-- The nine category buckets of a QualityAnalysis, in the field order of
models.py. -/
def buckets (qa : QualityAnalysis) : List (List ConversationIssue) :=
  [ qa.repetitive, qa.unhelpful, qa.too_many_turns, qa.dead_end, qa.negative_rating
  , qa.obvious_wrong_answers, qa.missed_escalation, qa.dumb_questions
  , qa.lack_of_encouragement ]

/-! ## Summary statistics (models.py `QualityAnalysis.to_dict` lines 207-281) -/

/-- Concatenation of all category buckets (`all_issues`, models.py lines
239-249), in source order. -/
def allIssues (qa : QualityAnalysis) : List ConversationIssue :=
  qa.repetitive ++ qa.unhelpful ++ qa.too_many_turns ++ qa.dead_end
    ++ qa.negative_rating ++ qa.obvious_wrong_answers ++ qa.missed_escalation
    ++ qa.dumb_questions ++ qa.lack_of_encouragement

/-- `scored_issues` (models.py lines 252-254): the issues carrying a
severity score. -/
def scoredIssues (qa : QualityAnalysis) : List ConversationIssue :=
  (allIssues qa).filter (fun i => i.severity_score.isSome)

/-- The `summary` block of `to_dict` (models.py lines 255-269). The
Python float mean is modelled as an exact rational. -/
structure SummaryStats where
  conversations_with_issues : Nat
  average_severity : Rat
  total_issues_found : Nat
deriving DecidableEq, Repr

/-- The conditional summary part of `to_dict` (models.py lines 251-279):
when `all_issues` is nonempty and some issue carries a severity score,
the dict gains a `summary` block (distinct conversation count, mean
severity over scored issues, total issue count) and a `top_offenders`
list (the scored issues sorted by severity descending, first 20);
otherwise neither key is added. -/
def toDictSummary (qa : QualityAnalysis) :
    Option (SummaryStats × List ConversationIssue) :=
  let all := allIssues qa
  if !all.isEmpty && all.any (fun i => i.severity_score.isSome) then
    let scored := all.filter (fun i => i.severity_score.isSome)
    some
      ( { conversations_with_issues := (all.map (fun i => i.conversation_id)).toFinset.card
        , average_severity :=
            if !scored.isEmpty then
              (((scored.map (fun i => i.severity_score.getD 0)).sum : Int) : Rat)
                / ((scored.length : Nat) : Rat)
            else 0
        , total_issues_found := all.length }
      , (sortBySeverityDesc scored).take 20 )
  else
    none

/-! ## Helper lemmas about the severity sort -/

/-- The sort is a permutation of its input. -/
lemma sortBySeverityDesc_perm (l : List ConversationIssue) :
    (sortBySeverityDesc l).Perm l :=
  List.mergeSort_perm l _

/-- The sort output is pairwise non-increasing in the sort key. -/
lemma sortBySeverityDesc_sorted (l : List ConversationIssue) :
    List.Pairwise (fun a b => sortKey b ≤ sortKey a) (sortBySeverityDesc l) := by
  have h := @List.sorted_mergeSort ConversationIssue
    (fun a b : ConversationIssue => decide (sortKey b ≤ sortKey a))
    (fun a b c hab hbc => by
      simp only [decide_eq_true_eq] at hab hbc ⊢
      exact le_trans hbc hab)
    (fun a b => by
      rcases le_total (sortKey b) (sortKey a) with h | h <;> simp [h])
    l
  exact h.imp (fun hab => of_decide_eq_true hab)

/-- Members of the sort output are members of the input. -/
lemma mem_sortBySeverityDesc {x : ConversationIssue} {l : List ConversationIssue} :
    x ∈ sortBySeverityDesc l ↔ x ∈ l :=
  List.mem_mergeSort

/-- Sorting lists that are permutations of one another yields lists that
are permutations of one another with identical severity-key sequences:
the outputs can differ only in the order of equal-severity issues. -/
lemma sortBySeverityDesc_congr {l₁ l₂ : List ConversationIssue} (h : l₁.Perm l₂) :
    (sortBySeverityDesc l₁).Perm (sortBySeverityDesc l₂)
    ∧ (sortBySeverityDesc l₁).map sortKey = (sortBySeverityDesc l₂).map sortKey := by
  have hperm : (sortBySeverityDesc l₁).Perm (sortBySeverityDesc l₂) :=
    ((sortBySeverityDesc_perm l₁).trans h).trans (sortBySeverityDesc_perm l₂).symm
  refine ⟨hperm, ?_⟩
  have hanti : IsAntisymm Int (fun x y => y ≤ x) := ⟨fun a b h1 h2 => le_antisymm h2 h1⟩
  refine @List.eq_of_perm_of_sorted Int (fun x y : Int => y ≤ x) hanti _ _ (hperm.map sortKey) ?_ ?_
  · exact List.pairwise_map.mpr (sortBySeverityDesc_sorted l₁)
  · exact List.pairwise_map.mpr (sortBySeverityDesc_sorted l₂)

/-- A Boolean `any` is invariant under permutation. -/
lemma any_eq_of_perm {α : Type} (p : α → Bool) {l₁ l₂ : List α} (h : l₁.Perm l₂) :
    l₁.any p = l₂.any p := by
  rcases hb : l₂.any p
  · simp only [List.any_eq_false] at hb ⊢
    intro x hx
    exact hb x (h.mem_iff.mp hx)
  · simp only [List.any_eq_true] at hb ⊢
    obtain ⟨x, hx, hp⟩ := hb
    exact ⟨x, h.mem_iff.mpr hx, hp⟩

/-- Every issue flowing into `analyze_async`'s aggregation carries a
severity score, because `_analyze_single_conversation` only ever returns
`[]` or `_result_to_issues` output, and `_result_to_issues` always sets
`severity_score` from the severity map. -/
lemma flatten_results_scored (perConv : Conversation → List ConversationIssue)
    (hsrc : ∀ c, perConv c = [] ∨ ∃ r, perConv c = resultToIssues c r)
    (conversations : List Conversation) {x : ConversationIssue}
    (hx : x ∈ (conversations.map perConv).flatten) :
    ∃ v, x.severity_score = some v := by
  obtain ⟨l, hl, hxl⟩ := List.mem_flatten.mp hx
  obtain ⟨c, _hc, rfl⟩ := List.mem_map.mp hl
  rcases hsrc c with hnil | ⟨r, hr⟩
  · rw [hnil] at hxl
    cases hxl
  · rw [hr] at hxl
    obtain ⟨f, _hf, rfl⟩ := List.mem_map.mp hxl
    exact ⟨severityMap f.severity, rfl⟩

/-- C6: in the QualityAnalysis returned by `analyze_async`, every category
bucket is pairwise non-increasing in severity (each issue there carries a
score, and earlier scores are at least later scores); in particular no
severity-9 issue ever follows a severity-3 issue within a bucket. The
hypothesis `hsrc` records that each conversation's issue list comes from
`_analyze_single_conversation`: either the empty list (judge failure) or
the `_result_to_issues` projection of some judgment (cache hit or fresh
call). -/
theorem C6_buckets_sorted_by_severity (perConv : Conversation → List ConversationIssue)
    (conversations : List Conversation)
    (hsrc : ∀ c, perConv c = [] ∨ ∃ r, perConv c = resultToIssues c r)
    (b : List ConversationIssue)
    (hb : b ∈ buckets (analyzeAsync perConv conversations)) :
    List.Pairwise (fun a a' => sortKey a' ≤ sortKey a) b
    ∧ (∀ x ∈ b, ∃ v, x.severity_score = some v)
    ∧ List.Pairwise
        (fun a a' => ¬(a.severity_score = some 3 ∧ a'.severity_score = some 9)) b := by
  have hscored : ∀ p : ConversationIssue → Bool, ∀ x ∈
      sortBySeverityDesc (((conversations.map perConv).flatten).filter p),
      ∃ v, x.severity_score = some v := by
    intro p x hx
    have hx' := (List.mem_filter.mp (mem_sortBySeverityDesc.mp hx)).1
    exact flatten_results_scored perConv hsrc conversations hx'
  have key : ∀ p : ConversationIssue → Bool,
      List.Pairwise (fun a a' => sortKey a' ≤ sortKey a)
        (sortBySeverityDesc (((conversations.map perConv).flatten).filter p))
      ∧ (∀ x ∈ sortBySeverityDesc (((conversations.map perConv).flatten).filter p),
          ∃ v, x.severity_score = some v)
      ∧ List.Pairwise
          (fun a a' => ¬(a.severity_score = some 3 ∧ a'.severity_score = some 9))
          (sortBySeverityDesc (((conversations.map perConv).flatten).filter p)) := by
    intro p
    refine ⟨sortBySeverityDesc_sorted _, hscored p, ?_⟩
    refine (sortBySeverityDesc_sorted _).imp ?_
    intro a a' hle ⟨ha3, ha9⟩
    rw [sortKey, sortKey, ha3, ha9] at hle
    simp at hle
  simp only [buckets, analyzeAsync, categorizeAndSort, List.mem_cons,
    List.mem_singleton] at hb
  rcases hb with rfl | rfl | rfl | rfl | rfl | rfl | rfl | rfl | rfl | hfalse
  · exact key isRepetitiveIssue
  · exact key isUnhelpfulCatchAll
  · exact ⟨List.Pairwise.nil, fun x hx => absurd hx (List.not_mem_nil x), List.Pairwise.nil⟩
  · exact key isDeadEndIssue
  · exact ⟨List.Pairwise.nil, fun x hx => absurd hx (List.not_mem_nil x), List.Pairwise.nil⟩
  · exact key isObviousWrongAnswerIssue
  · exact key isMissedEscalationIssue
  · exact key isDumbQuestionIssue
  · exact key isLackOfEncouragementIssue
  · cases hfalse

/-- C6 witness: the bucket-sortedness theorem applied to a concrete run
whose judge returns `sampleResult` (one high and one low flag) for the
sample conversation, read off on the missed_escalation bucket. -/
theorem C6_buckets_sorted_by_severity_witness :
    List.Pairwise (fun a a' => sortKey a' ≤ sortKey a)
      ((analyzeAsync (fun c => resultToIssues c sampleResult)
          [sampleConversation]).missed_escalation)
    ∧ (∀ x ∈ (analyzeAsync (fun c => resultToIssues c sampleResult)
          [sampleConversation]).missed_escalation, ∃ v, x.severity_score = some v) := by
  have h := C6_buckets_sorted_by_severity (fun c => resultToIssues c sampleResult)
    [sampleConversation] (fun c => Or.inr ⟨sampleResult, rfl⟩)
    ((analyzeAsync (fun c => resultToIssues c sampleResult)
        [sampleConversation]).missed_escalation)
    (by simp [buckets])
  exact ⟨h.1, h.2.1⟩

/-- Unfolding lemma: the full bucket concatenation of an `analyze_async`
result, written out. -/
lemma allIssues_analyzeAsync (perConv : Conversation → List ConversationIssue)
    (conversations : List Conversation) :
    allIssues (analyzeAsync perConv conversations)
      = sortBySeverityDesc (((conversations.map perConv).flatten).filter isRepetitiveIssue)
        ++ sortBySeverityDesc (((conversations.map perConv).flatten).filter isUnhelpfulCatchAll)
        ++ []
        ++ sortBySeverityDesc (((conversations.map perConv).flatten).filter isDeadEndIssue)
        ++ []
        ++ sortBySeverityDesc (((conversations.map perConv).flatten).filter isObviousWrongAnswerIssue)
        ++ sortBySeverityDesc (((conversations.map perConv).flatten).filter isMissedEscalationIssue)
        ++ sortBySeverityDesc (((conversations.map perConv).flatten).filter isDumbQuestionIssue)
        ++ sortBySeverityDesc (((conversations.map perConv).flatten).filter isLackOfEncouragementIssue) := rfl

/-- Unfolding lemma: the bucket list of an `analyze_async` result,
written out. -/
lemma buckets_analyzeAsync (perConv : Conversation → List ConversationIssue)
    (conversations : List Conversation) :
    buckets (analyzeAsync perConv conversations)
      = [ sortBySeverityDesc (((conversations.map perConv).flatten).filter isRepetitiveIssue)
        , sortBySeverityDesc (((conversations.map perConv).flatten).filter isUnhelpfulCatchAll)
        , []
        , sortBySeverityDesc (((conversations.map perConv).flatten).filter isDeadEndIssue)
        , []
        , sortBySeverityDesc (((conversations.map perConv).flatten).filter isObviousWrongAnswerIssue)
        , sortBySeverityDesc (((conversations.map perConv).flatten).filter isMissedEscalationIssue)
        , sortBySeverityDesc (((conversations.map perConv).flatten).filter isDumbQuestionIssue)
        , sortBySeverityDesc (((conversations.map perConv).flatten).filter isLackOfEncouragementIssue)
        ] := rfl

/-- The summary statistics of `to_dict` (and the severity-key sequence of
its top_offenders list) depend only on the multiset of issues in the
buckets. -/
lemma toDictSummary_congr {qa₁ qa₂ : QualityAnalysis}
    (hall : (allIssues qa₁).Perm (allIssues qa₂)) :
    (toDictSummary qa₁).map Prod.fst = (toDictSummary qa₂).map Prod.fst
    ∧ (toDictSummary qa₁).map (fun p => p.2.map sortKey)
        = (toDictSummary qa₂).map (fun p => p.2.map sortKey) := by
  have hScored : ((allIssues qa₁).filter (fun i => i.severity_score.isSome)).Perm
      ((allIssues qa₂).filter (fun i => i.severity_score.isSome)) := hall.filter _
  have hcond : (!(allIssues qa₁).isEmpty
        && (allIssues qa₁).any (fun i => i.severity_score.isSome))
      = (!(allIssues qa₂).isEmpty
        && (allIssues qa₂).any (fun i => i.severity_score.isSome)) := by
    rw [hall.isEmpty_eq, any_eq_of_perm _ hall]
  have hfin : ((allIssues qa₁).map (fun i => i.conversation_id)).toFinset
      = ((allIssues qa₂).map (fun i => i.conversation_id)).toFinset :=
    List.toFinset_eq_of_perm _ _ (hall.map _)
  have hsum : ((allIssues qa₁).filter (fun i => i.severity_score.isSome)
        |>.map (fun i => i.severity_score.getD 0)).sum
      = ((allIssues qa₂).filter (fun i => i.severity_score.isSome)
        |>.map (fun i => i.severity_score.getD 0)).sum :=
    (hScored.map _).sum_eq
  have hsorted := sortBySeverityDesc_congr hScored
  simp only [toDictSummary]
  rw [hcond]
  by_cases hc : (!(allIssues qa₂).isEmpty
      && (allIssues qa₂).any (fun i => i.severity_score.isSome)) = true
  · rw [if_pos hc, if_pos hc]
    constructor
    · simp only [Option.map_some']
      rw [hfin, hScored.isEmpty_eq, hsum, hScored.length_eq, hall.length_eq]
    · simp only [Option.map_some']
      rw [List.map_take, List.map_take, hsorted.2]
  · rw [if_neg hc, if_neg hc]
    exact ⟨rfl, rfl⟩

/-- C3: permuting the conversation list (with the judge and cache
behaving identically per conversation, so the per-conversation issue
lists are a fixed function of the conversation) leaves `analyze_async`'s
QualityAnalysis the same up to reordering of equal-severity issues:
total_analyzed is identical, each category bucket is a permutation of its
counterpart with an identical severity-key sequence (so order differs only
among issues of equal severity), and the summary statistics (and the
severity-key sequence of the top_offenders list) are identical. The same
statement also covers the `asyncio.as_completed` completion order, which
is itself a permutation of the submission order. -/
theorem C3_order_independence (perConv : Conversation → List ConversationIssue)
    {convs₁ convs₂ : List Conversation} (h : convs₁.Perm convs₂) :
    (analyzeAsync perConv convs₁).total_analyzed
        = (analyzeAsync perConv convs₂).total_analyzed
    ∧ List.Forall₂ (fun b₁ b₂ => b₁.Perm b₂ ∧ b₁.map sortKey = b₂.map sortKey)
        (buckets (analyzeAsync perConv convs₁)) (buckets (analyzeAsync perConv convs₂))
    ∧ (toDictSummary (analyzeAsync perConv convs₁)).map Prod.fst
        = (toDictSummary (analyzeAsync perConv convs₂)).map Prod.fst
    ∧ (toDictSummary (analyzeAsync perConv convs₁)).map (fun p => p.2.map sortKey)
        = (toDictSummary (analyzeAsync perConv convs₂)).map (fun p => p.2.map sortKey) := by
  have hflat : ((convs₁.map perConv).flatten).Perm ((convs₂.map perConv).flatten) :=
    (h.map perConv).flatten
  have hb : ∀ p : ConversationIssue → Bool,
      (sortBySeverityDesc (((convs₁.map perConv).flatten).filter p)).Perm
        (sortBySeverityDesc (((convs₂.map perConv).flatten).filter p))
      ∧ (sortBySeverityDesc (((convs₁.map perConv).flatten).filter p)).map sortKey
        = (sortBySeverityDesc (((convs₂.map perConv).flatten).filter p)).map sortKey :=
    fun p => sortBySeverityDesc_congr (hflat.filter p)
  have hall : (allIssues (analyzeAsync perConv convs₁)).Perm
      (allIssues (analyzeAsync perConv convs₂)) := by
    rw [allIssues_analyzeAsync, allIssues_analyzeAsync]
    exact ((((((((hb isRepetitiveIssue).1.append
      (hb isUnhelpfulCatchAll).1).append (List.Perm.refl [])).append
      (hb isDeadEndIssue).1).append (List.Perm.refl [])).append
      (hb isObviousWrongAnswerIssue).1).append
      (hb isMissedEscalationIssue).1).append
      (hb isDumbQuestionIssue).1).append
      (hb isLackOfEncouragementIssue).1
  have hsummary := toDictSummary_congr hall
  refine ⟨h.length_eq, ?_, hsummary.1, hsummary.2⟩
  rw [buckets_analyzeAsync, buckets_analyzeAsync]
  exact List.Forall₂.cons (hb isRepetitiveIssue)
    (List.Forall₂.cons (hb isUnhelpfulCatchAll)
      (List.Forall₂.cons ⟨List.Perm.refl [], rfl⟩
        (List.Forall₂.cons (hb isDeadEndIssue)
          (List.Forall₂.cons ⟨List.Perm.refl [], rfl⟩
            (List.Forall₂.cons (hb isObviousWrongAnswerIssue)
              (List.Forall₂.cons (hb isMissedEscalationIssue)
                (List.Forall₂.cons (hb isDumbQuestionIssue)
                  (List.Forall₂.cons (hb isLackOfEncouragementIssue)
                    List.Forall₂.nil))))))))

/-- Second sample conversation, used to exercise permutation claims. -/
def sampleConversation2 : Conversation :=
  { id := "conv-2"
  , messages := [ { role := "user", content := "Amira is not loading." } ]
  , created_at := "2024-01-02T00:00:00Z"
  , status := some "open"
  , rating := none }

/-- C3 witness: the order-independence theorem applied to the two
orderings of a concrete two-conversation batch. -/
theorem C3_order_independence_witness :
    (analyzeAsync (fun c => resultToIssues c sampleResult)
        [sampleConversation, sampleConversation2]).total_analyzed
      = (analyzeAsync (fun c => resultToIssues c sampleResult)
        [sampleConversation2, sampleConversation]).total_analyzed
    ∧ (toDictSummary (analyzeAsync (fun c => resultToIssues c sampleResult)
        [sampleConversation, sampleConversation2])).map Prod.fst
      = (toDictSummary (analyzeAsync (fun c => resultToIssues c sampleResult)
        [sampleConversation2, sampleConversation])).map Prod.fst := by
  have h := C3_order_independence (fun c => resultToIssues c sampleResult)
    (List.Perm.swap sampleConversation2 sampleConversation [])
  exact ⟨h.1, h.2.2.1⟩

/-! ## C8: summary statistics of `to_dict` -/

/-- A QualityAnalysis with no issues at all (e.g. an empty batch). -/
def emptyQualityAnalysis : QualityAnalysis :=
  { total_analyzed := 0
  , repetitive := [], unhelpful := [], too_many_turns := [], dead_end := []
  , negative_rating := [], obvious_wrong_answers := [], missed_escalation := []
  , dumb_questions := [], lack_of_encouragement := [] }

/-- C8 counterexample: the claim says that for EVERY QualityAnalysis the
serialized aggregate reports summary statistics, but `to_dict` adds the
`summary` and `top_offenders` keys only under
`if all_issues and any(issue.severity_score is not None ...)` (models.py
line 251): for the empty QualityAnalysis no summary block is produced at
all. -/
theorem C8_counterexample : toDictSummary emptyQualityAnalysis = none := rfl

/-- C8 (amended): whenever at least one issue carries a severity score,
`to_dict` reports a summary block whose conversation count is the number
of distinct conversation IDs over the full issue set (each of which has at
least one issue by membership), whose total is the full issue count, and
whose average times the number of scored issues equals the sum of their
severity scores; together with a top_offenders list of at most 20 issues,
sorted by severity descending, drawn from the scored issues. -/
theorem C8_summary_statistics (qa : QualityAnalysis)
    (h : (allIssues qa).any (fun i => i.severity_score.isSome) = true) :
    ∃ stats top, toDictSummary qa = some (stats, top)
    ∧ stats.conversations_with_issues
        = ((allIssues qa).map (fun i => i.conversation_id)).toFinset.card
    ∧ stats.total_issues_found = (allIssues qa).length
    ∧ stats.average_severity * (((scoredIssues qa).length : Nat) : Rat)
        = ((((scoredIssues qa).map (fun i => i.severity_score.getD 0)).sum : Int) : Rat)
    ∧ top.length ≤ 20
    ∧ List.Pairwise (fun a a' => sortKey a' ≤ sortKey a) top
    ∧ ∀ x ∈ top, x ∈ allIssues qa ∧ x.severity_score.isSome = true := by
  obtain ⟨x, hx, hp⟩ := List.any_eq_true.mp h
  have hne : (allIssues qa).isEmpty = false := by
    rcases he : (allIssues qa).isEmpty
    · rfl
    · rw [List.isEmpty_iff] at he
      rw [he] at hx
      cases hx
  have hxScored : x ∈ scoredIssues qa := List.mem_filter.mpr ⟨hx, hp⟩
  have hScoredNe : (scoredIssues qa).isEmpty = false := by
    rcases he : (scoredIssues qa).isEmpty
    · rfl
    · rw [List.isEmpty_iff] at he
      rw [he] at hxScored
      cases hxScored
  have hlenpos : 0 < (scoredIssues qa).length :=
    List.length_pos.mpr (List.ne_nil_of_mem hxScored)
  have htd : toDictSummary qa = some
      ( { conversations_with_issues :=
            ((allIssues qa).map (fun i => i.conversation_id)).toFinset.card
        , average_severity := if !(scoredIssues qa).isEmpty then
            ((((scoredIssues qa).map (fun i => i.severity_score.getD 0)).sum : Int) : Rat)
              / (((scoredIssues qa).length : Nat) : Rat) else 0
        , total_issues_found := (allIssues qa).length }
      , (sortBySeverityDesc (scoredIssues qa)).take 20 ) := by
    simp only [toDictSummary, scoredIssues, hne, h]
    rfl
  refine ⟨_, _, htd, rfl, rfl, ?_, ?_, ?_, ?_⟩
  · simp only [hScoredNe, Bool.not_false, if_true]
    refine div_mul_cancel₀ _ ?_
    exact_mod_cast Nat.pos_iff_ne_zero.mp hlenpos
  · exact List.length_take_le 20 _
  · exact (sortBySeverityDesc_sorted _).sublist (List.take_sublist _ _)
  · intro y hy
    have hy' : y ∈ scoredIssues qa :=
      mem_sortBySeverityDesc.mp (List.mem_of_mem_take hy)
    exact List.mem_filter.mp hy'

/-- C8 witness: the amended summary theorem applied to a concrete
QualityAnalysis holding one scored issue. -/
theorem C8_summary_statistics_witness :
    ∃ stats top,
      toDictSummary
        { total_analyzed := 1
        , repetitive := [], unhelpful := [], too_many_turns := [], dead_end := []
        , negative_rating := []
        , obvious_wrong_answers := []
        , missed_escalation := [flagToIssue sampleConversation sampleResult sampleFlag]
        , dumb_questions := [], lack_of_encouragement := [] } = some (stats, top)
      ∧ top.length ≤ 20 := by
  obtain ⟨stats, top, h1, _h2, _h3, _h4, h5, _h6, _h7⟩ :=
    C8_summary_statistics
      { total_analyzed := 1
      , repetitive := [], unhelpful := [], too_many_turns := [], dead_end := []
      , negative_rating := []
      , obvious_wrong_answers := []
      , missed_escalation := [flagToIssue sampleConversation sampleResult sampleFlag]
      , dumb_questions := [], lack_of_encouragement := [] }
      (by rfl)
  exact ⟨stats, top, h1, h5⟩

/-! ## C4: atomicity of the cache put -/

/-- C4 counterexample: saving a new record over an existing one is NOT
atomic. Writing the two-character record "ok" over a previous record "A":
the truncated state `some ""` — the empty file left by
`output_path.open("w")` before `json.dump` has emitted anything — is
observable during the save, and it is neither the previous record, nor
the completed new record, nor absence; and a failure right after the
truncating open leaves the file empty instead of preserving "A". -/
theorem C4_counterexample :
    some "" ∈ saveObservableStates (some "A") "ok"
    ∧ some "" ≠ some "A"
    ∧ some "" ≠ some "ok"
    ∧ saveInterruptedState "ok" 0 ≠ some "A" := by
  refine ⟨?_, by decide, by decide, by decide⟩
  have h0 : some "" = some (String.mk (("ok" : String).data.take 0)) := rfl
  rw [h0]
  exact List.mem_cons_of_mem _
    (List.mem_map.mpr ⟨0, List.mem_range.mpr (Nat.succ_pos _), rfl⟩)

/-- C4 (amended): the cache put truncates the target file in place
(`open("w")`) and then streams the JSON into it, so the empty truncated
state is always among the observable states of the save (and, for a
nonempty record, differs from the completed record); what protects
readers is the read side: any state that fails to parse or validate is
treated by `_load_cached_analysis` as a cache miss rather than an error. -/
theorem C4_put_not_atomic (oldFile : Option String) (newContent : String)
    (parse : String → Option ConversationAnalysisResult)
    (cid corrupted : String)
    (hnew : newContent ≠ "")
    (hc : parse corrupted = none) :
    some "" ∈ saveObservableStates oldFile newContent
    ∧ some "" ≠ some newContent
    ∧ (loadCachedAnalysis parse cid (some corrupted)).1 = none := by
  refine ⟨?_, ?_, ?_⟩
  · have h0 : some ("" : String) = some (String.mk (newContent.data.take 0)) := rfl
    rw [h0]
    exact List.mem_cons_of_mem _
      (List.mem_map.mpr ⟨0, List.mem_range.mpr (Nat.succ_pos _), rfl⟩)
  · intro hcontra
    exact hnew (Option.some.inj hcontra).symm
  · simp [loadCachedAnalysis, hc]

/-- C4 witness: the non-atomicity theorem applied at concrete old and new
records and a concrete unparseable truncated state. -/
theorem C4_put_not_atomic_witness :
    some "" ∈ saveObservableStates (some "A") "ok"
    ∧ (loadCachedAnalysis parseNone "conv-1" (some "")).1 = none := by
  obtain ⟨h1, _h2, h3⟩ := C4_put_not_atomic (some "A") "ok" parseNone "conv-1" ""
    (by decide) rfl
  exact ⟨h1, h3⟩

/-! ## C2: bounded concurrency (ai.py lines 244-245, 493-523)

The asyncio discipline of `_analyze_single_conversation` is modelled as a
transition system: one task per conversation, each in a phase
corresponding to a region of the function, with an arbitrary interleaving
of per-task steps (a superset of the cooperative schedules asyncio can
produce). The semaphore `asyncio.Semaphore(max_concurrency)` (line 245)
admits a task only while fewer than K tasks are inside the
`async with self.semaphore:` block. -/

/-- Phase of one conversation's task inside
`_analyze_single_conversation`:
`start` — function entry and cache check (lines 480-490);
`waitSem` — cache miss, blocked at `async with self.semaphore` (line 493);
`inJudge` — holding a semaphore slot with the judge call in flight
(lines 495-509);
`postJudge` — still holding the slot while saving the judgment and
converting it to issues, or while handling the caught judge exception
(lines 511-523, all inside the `async with` block);
`done` — returned, slot released. -/
inductive Phase where
  | start
  | waitSem
  | inJudge
  | postJudge
  | done
deriving DecidableEq, Repr

/-- Whether a task in this phase holds a semaphore slot: the whole
`async with self.semaphore:` body, lines 493-523. -/
def holdsSlot : Phase → Bool
  | Phase.inJudge => true
  | Phase.postJudge => true
  | _ => false

/-- Whether a task in this phase has a judge invocation in flight
(lines 499-509 only). -/
def inJudgeCall : Phase → Bool
  | Phase.inJudge => true
  | _ => false

/-- Number of semaphore slots currently held. -/
def holders (s : List Phase) : Nat := s.countP holdsSlot

/-- Number of judge invocations currently in flight. -/
def inFlight (s : List Phase) : Nat := s.countP inJudgeCall

/-- One interleaving step of the batch: some task advances one region.
`acquire` is the semaphore admission and is enabled only while fewer than
K slots are held; `judgeDone` moves a slot-holding task from the judge
call to the save/convert tail WITHOUT releasing the slot (the
`async with` block spans both); `release` is the block exit. -/
inductive SemStep (K : Nat) : List Phase → List Phase → Prop
  | cacheHit (l r : List Phase) :
      SemStep K (l ++ Phase.start :: r) (l ++ Phase.done :: r)
  | cacheMiss (l r : List Phase) :
      SemStep K (l ++ Phase.start :: r) (l ++ Phase.waitSem :: r)
  | acquire (l r : List Phase)
      (h : holders (l ++ Phase.waitSem :: r) < K) :
      SemStep K (l ++ Phase.waitSem :: r) (l ++ Phase.inJudge :: r)
  | judgeDone (l r : List Phase) :
      SemStep K (l ++ Phase.inJudge :: r) (l ++ Phase.postJudge :: r)
  | release (l r : List Phase) :
      SemStep K (l ++ Phase.postJudge :: r) (l ++ Phase.done :: r)

/-- States reachable by a batch of n conversations under capacity K,
starting with every task at function entry. -/
inductive SemReach (K n : Nat) : List Phase → Prop
  | init : SemReach K n (List.replicate n Phase.start)
  | step {s t : List Phase} : SemReach K n s → SemStep K s t → SemReach K n t

/-- Invariant: the number of held semaphore slots never exceeds the
capacity K. -/
lemma holders_le_of_reach {K n : Nat} {s : List Phase} (h : SemReach K n s) :
    holders s ≤ K := by
  induction h with
  | init =>
    simp [holders, List.countP_replicate, holdsSlot]
  | step _hr hstep ih =>
    cases hstep with
    | cacheHit l r =>
      simp [holders, List.countP_append, List.countP_cons, holdsSlot] at ih ⊢
      omega
    | cacheMiss l r =>
      simp [holders, List.countP_append, List.countP_cons, holdsSlot] at ih ⊢
      omega
    | acquire l r hcap =>
      simp [holders, List.countP_append, List.countP_cons, holdsSlot] at ih hcap ⊢
      omega
    | judgeDone l r =>
      simp [holders, List.countP_append, List.countP_cons, holdsSlot] at ih ⊢
      omega
    | release l r =>
      simp [holders, List.countP_append, List.countP_cons, holdsSlot] at ih ⊢
      omega

/-- C2 (amended): for every capacity K and every batch size n, in every
reachable state at most K judge invocations are in flight — the semaphore
does bound concurrency. (The second half of the original claim, that the
slot is held only for the duration of the judge call, is refuted by
`C2_counterexample`: the slot is held across the save and conversion
steps as well.) -/
theorem C2_bounded_concurrency (K n : Nat) (s : List Phase)
    (h : SemReach K n s) : inFlight s ≤ K := by
  have hmono : inFlight s ≤ holders s := by
    refine List.countP_mono_left ?_
    intro x _hx hj
    cases x <;> simp_all [inJudgeCall, holdsSlot]
  exact le_trans hmono (holders_le_of_reach h)

/-- C2 witness: the bound applied to a concrete batch of two
conversations under capacity 1, at the initial state. -/
theorem C2_bounded_concurrency_witness :
    inFlight (List.replicate 2 Phase.start) ≤ 1 :=
  C2_bounded_concurrency 1 2 (List.replicate 2 Phase.start) SemReach.init

/-- C2 counterexample: the claim also asserts the semaphore slot is held
ONLY for the duration of the Judge call, but the `async with` block spans
the cache write and issue conversion too: with capacity 1 and a single
conversation, the state in which the task is saving/converting
(`postJudge`) is reachable, and there a slot is held (holders = 1) while
no judge invocation is in flight (inFlight = 0). -/
theorem C2_counterexample :
    SemReach 1 1 [Phase.postJudge]
    ∧ holders [Phase.postJudge] = 1
    ∧ inFlight [Phase.postJudge] = 0 := by
  refine ⟨?_, by decide, by decide⟩
  have hinit : SemReach 1 1 [Phase.start] := SemReach.init
  have h1 : SemStep 1 [Phase.start] [Phase.waitSem] := SemStep.cacheMiss [] []
  have h2 : SemStep 1 [Phase.waitSem] [Phase.inJudge] :=
    SemStep.acquire [] [] (by decide)
  have h3 : SemStep 1 [Phase.inJudge] [Phase.postJudge] := SemStep.judgeDone [] []
  exact ((hinit.step h1).step h2).step h3
